import Mathlib

/-!
Verification of the Hikvision device client and enrollment orchestration
(`src/lib/hikvision` digest helper, `src/pages/api/hikvision/batch-enroll.js`,
`src/pages/api/hikvision/users.js`).

The JavaScript source is shallowly embedded: JS objects become structures,
the module-level nonce-counter object becomes an explicit `String → Nat` map
threaded through calls, network interactions become explicit outcome values
supplied as inputs, and the external `crypto` MD5 hash and random cnonce
generator are abstracted as function parameters (they are library code, not
repository code).  JS string falsiness (`x || d`) is modelled by `jsOrStr`.
-/

namespace Hik

/-- JS `v || d` on an optional string: `undefined` and the empty string are
falsy and fall through to the default. -/
def jsOrStr (v : Option String) (d : String) : String :=
  match v with
  | none => d
  | some s => if s = "" then d else s

/-- JS or-chains (a, then b, then the empty string) over possibly-missing strings:
the first present, non-empty string wins, otherwise `""`. -/
def firstTruthy : List (Option String) → String
  | [] => ""
  | v :: rest =>
    match v with
    | some s => if s = "" then firstTruthy rest else s
    | none => firstTruthy rest

/-- JS `String.prototype.padStart(n, c)`: left-pad to length `n`
(a longer string is returned unchanged). -/
def padStart (s : String) (n : Nat) (c : Char) : String :=
  String.mk (List.replicate (n - s.length) c) ++ s

/-- A parsed `WWW-Authenticate: Digest` challenge (`parseDigestHeader`
output): `realm` and `nonce` are always present on this device; `qop` and
the opaque value may be absent.  `opq` models the source field named opaque. -/
structure Challenge where
  realm : String
  nonce : String
  qop : Option String
  opq : Option String
deriving Repr, DecidableEq

/-- The module-level `ncCounters` object: per-`realm:nonce` request counter.
A key never written reads as 0 (JS `ncCounters[key] || 0`). -/
def NcCounters : Type := String → Nat

/-- Result of `buildDigestAuth`: the header parts array built by the source,
the joined header string it returns, and the updated counter map. -/
structure DigestAuth where
  parts : List String
  header : String
  counters : NcCounters

/-- Source function `buildDigestAuth(username, password, method, uri, challenge)`
from `lib/hikvision`.  `md5` abstracts the crypto MD5 hex digest, `cnonce`
abstracts the random 8-byte hex token; `counters` is the
module-level `ncCounters` state. -/
def buildDigestAuth (md5 : String → String) (username password method uri cnonce : String)
    (challenge : Challenge) (counters : NcCounters) : DigestAuth :=
  let realm := challenge.realm
  let nonce := challenge.nonce
  let qop := jsOrStr challenge.qop "auth"
  let opq := jsOrStr challenge.opq ""
  let key := realm ++ ":" ++ nonce
  let newCount := counters key + 1
  let counters2 : NcCounters := fun k => if k = key then newCount else counters k
  let nc := padStart (toString newCount) 8 '0'
  let ha1 := md5 (username ++ ":" ++ realm ++ ":" ++ password)
  let ha2 := md5 (method ++ ":" ++ uri)
  let response := md5 (ha1 ++ ":" ++ nonce ++ ":" ++ nc ++ ":" ++ cnonce ++ ":" ++ qop ++ ":" ++ ha2)
  let parts := [
    "Digest username=\"" ++ username ++ "\"",
    "realm=\"" ++ realm ++ "\"",
    "nonce=\"" ++ nonce ++ "\"",
    "uri=\"" ++ uri ++ "\"",
    "qop=" ++ qop,
    "nc=" ++ nc,
    "cnonce=\"" ++ cnonce ++ "\"",
    "response=\"" ++ response ++ "\"",
    "opaque=\"" ++ opq ++ "\""]
  { parts := parts, header := String.intercalate ", " parts, counters := counters2 }

/-- Modelled from the spec (refinement reference): the digest response chain
`HA1 = MD5(username:realm:password)`, `HA2 = MD5(method:path)`,
`response = MD5(HA1:nonce:nc:cnonce:qop:HA2)`. -/
def specDigestResponse (md5 : String → String)
    (username realm password method path nonce nc cnonce qop : String) : String :=
  md5 (md5 (username ++ ":" ++ realm ++ ":" ++ password) ++ ":" ++ nonce ++ ":" ++ nc
    ++ ":" ++ cnonce ++ ":" ++ qop ++ ":" ++ md5 (method ++ ":" ++ path))

/-- An HTTP response observed by `hikRequest` (`{status, data}` with the body
kept abstract as a string). -/
structure Resp where
  status : Nat
  data : String
deriving Repr, DecidableEq

/-- The module-level state of the hikvision helper plus the device-side
environment it consumes: the cached challenge and counters (module state),
the challenges the device would hand out on successive probes and the
responses it would give to successive real requests (environment), and two
instrumentation counters recording how many probe round-trips and real
requests were issued. -/
structure HikState where
  cache : Option Challenge
  counters : NcCounters
  probes : List Challenge
  resps : List Resp
  probeCount : Nat
  reqCount : Nat

/-- Source function `getChallenge(device)`: reuse the cached challenge, otherwise probe the
always-401 endpoint and cache the parsed challenge.  `none` models the
probe failing to yield a Digest challenge (throw). -/
def getChallenge (st : HikState) : Option (Challenge × HikState) :=
  match st.cache with
  | some c => some (c, st)
  | none =>
    match st.probes with
    | [] => none
    | c :: rest =>
      some (c, { st with cache := some c, probes := rest, probeCount := st.probeCount + 1 })

/-- How a `hikRequest` call terminates.  `authFailed` is the
new Error with message "Authentication failed" thrown on the second consecutive 401;
`deviceErr` is the `ISAPI <method> <path> returned <status>` error thrown for
a 4xx other than 401, carrying the response; `axiosReject` is axios itself
rejecting because `validateStatus: (s) => s < 500` refused the status;
`transportErr` models a network-level failure of the real request;
`challengeErr` models `getChallenge` throwing. -/
inductive HikOutcome where
  | success (status : Nat) (data : String)
  | authFailed (respStatus : Nat) (respData : String)
  | deviceErr (message : String) (respStatus : Nat) (respData : String)
  | axiosReject (respStatus : Nat) (respData : String)
  | transportErr
  | challengeErr
deriving Repr, DecidableEq

/-- The `message` of the error a `hikRequest` outcome throws, if any. -/
def HikOutcome.errMessage : HikOutcome → Option String
  | .success _ _ => none
  | .authFailed _ _ => some "Authentication failed"
  | .deviceErr msg _ _ => some msg
  | .axiosReject s _ => some ("Request failed with status code " ++ toString s)
  | .transportErr => some "network error"
  | .challengeErr => some "Device did not return a Digest challenge"

/-- Whether the outcome is the constructed `ISAPI ... returned ...`
device error. -/
def HikOutcome.isDeviceErr : HikOutcome → Bool
  | .deviceErr _ _ _ => true
  | _ => false

/-- One iteration of the `for (attempt = 0; attempt < 2; attempt++)` loop of
`hikRequest`.  It obtains a challenge, builds the Authorization header (which
bumps the nonce counter; the cnonce is fresh per attempt, indexed by the
request number), then issues the real request: axios rejects a status ≥ 500
(`validateStatus: (s) => s < 500`); a 401 invalidates the cached challenge
and — unless this is the last attempt — `continue`s into the next iteration
(`Except.ok`); a 401 on the last attempt throws `Authentication failed`; any
other status ≥ 400 throws the ISAPI device error; otherwise the
`{status, data}` pair is returned. -/
def hikAttempt (md5 : String → String) (cnonce : Nat → String)
    (username password httpMethod apiPath : String) (isLast : Bool) (st : HikState) :
    Except (HikOutcome × HikState) HikState :=
  match getChallenge st with
  | none => .error (HikOutcome.challengeErr, st)
  | some (ch, st1) =>
    let auth := buildDigestAuth md5 username password httpMethod apiPath
      (cnonce st1.reqCount) ch st1.counters
    let st2 := { st1 with counters := auth.counters }
    match st2.resps with
    | [] => .error (HikOutcome.transportErr, st2)
    | r :: rest =>
      let st3 := { st2 with resps := rest, reqCount := st2.reqCount + 1 }
      if 500 ≤ r.status then
        .error (HikOutcome.axiosReject r.status r.data, st3)
      else if r.status = 401 then
        let st4 := { st3 with cache := none }
        if isLast then .error (HikOutcome.authFailed r.status r.data, st4)
        else .ok st4
      else if 400 ≤ r.status then
        .error (HikOutcome.deviceErr
          ("ISAPI " ++ httpMethod ++ " " ++ apiPath ++ " returned " ++ toString r.status)
          r.status r.data, st3)
      else
        .error (HikOutcome.success r.status r.data, st3)

/-- Source function `hikRequest(device, method, apiPath, ...)`: up to two attempts, the
initial one plus one retry on stale nonce.  The fall-through after the loop
(JS would return `undefined`) is unreachable because the last attempt never
`continue`s. -/
def hikRequest (md5 : String → String) (cnonce : Nat → String)
    (username password httpMethod apiPath : String) (st : HikState) :
    HikOutcome × HikState :=
  match hikAttempt md5 cnonce username password httpMethod apiPath false st with
  | .error r => r
  | .ok st2 =>
    match hikAttempt md5 cnonce username password httpMethod apiPath true st2 with
    | .error r => r
    | .ok st3 => (HikOutcome.transportErr, st3)

/-- The device-specific JSON body attached to an ISAPI response
(`statusCode`, `subStatusCode`, `StatusString.subStatusCode`, `errorMsg`);
fields a given response lacks are `none`. -/
structure DevData where
  statusCode : Option Int := none
  subStatusCode : Option String := none
  statusStringSub : Option String := none
  errorMsg : Option String := none
deriving Repr, DecidableEq

/-- Outcome of one `hikJson`/`hikRequest` call as seen by the gateway
wrappers: either it resolved with a parsed body, or it threw an error whose
`message` and optional `response.data` the catch block inspects. -/
inductive CallOutcome where
  | success (dta : DevData)
  | failure (msg : String) (respData : Option DevData)
deriving Repr, DecidableEq

/-- Result object of `createUser` (ok, existed, error, details). -/
structure CreateUserResult where
  ok : Bool
  existed : Bool := false
  error : Option String := none
  details : Option DevData := none
deriving Repr, DecidableEq

/-- Source function `createUser(device, employeeNo, name)` from `batch-enroll.js`: a resolved
call is success; a thrown error whose
the sub-status code taken from the body (or from StatusString, or empty) is
one of the already-exists codes is downgraded to success (`existed: true`);
anything else is a failure carrying the message and details. -/
def createUser (call : CallOutcome) : CreateUserResult :=
  match call with
  | .success _ => { ok := true }
  | .failure msg respData =>
    let sub := firstTruthy [respData.bind (fun d => d.subStatusCode),
      respData.bind (fun d => d.statusStringSub)]
    if sub = "deviceUserAlreadyExist" ∨ sub = "employeeNoAlreadyExist" then
      { ok := true, existed := true }
    else
      { ok := false, error := some msg, details := respData }

/-- Result object of `uploadFaceBase64` (ok, data, error).  On the throw
path the source stores `e.response?.data || e.message`; the model keeps the
error message. -/
structure UploadResult where
  ok : Bool
  dta : Option DevData := none
  error : Option String := none
deriving Repr, DecidableEq

/-- Source function `uploadFaceBase64(device, employeeNo, name, jpegBase64)` from
`batch-enroll.js` (multipart FDSetUp).  The resolved branch computes
the ok flag as statusCode-equals-1-or-true — the literal expression of the source — and
the catch branch returns `ok: false` with the error. -/
def uploadFaceBase64 (call : CallOutcome) : UploadResult :=
  match call with
  | .success dta => { ok := (dta.statusCode = some 1 : Bool) || true, dta := some dta }
  | .failure msg _ => { ok := false, error := some msg }

/-- Split a character list on `'.'` (helper for the address parser). -/
def splitDot : List Char → List Char → List (List Char)
  | [], acc => [acc.reverse]
  | c :: rest, acc =>
    if c = '.' then acc.reverse :: splitDot rest [] else splitDot rest (c :: acc)

/-- Parse a non-empty all-digit character run as a decimal number
(helper for the address parser). -/
def digitsValAux : List Char → Nat → Option Nat
  | [], acc => some acc
  | c :: rest, acc =>
    if c.isDigit then digitsValAux rest (acc * 10 + (c.toNat - 48)) else none

/-- Parse one dotted-quad component; the empty component is malformed. -/
def parseOctet : List Char → Option Nat
  | [] => none
  | c :: rest => digitsValAux (c :: rest) 0

/-- Modelled from the spec: `isAllowedDeviceIP` (exported by
`lib/hikvision`, a module not present under `src/`; only its callers are).
The spec: every Gateway entry point validates the target address is within
private LAN ranges before any request is attempted; public literals such as
`8.8.8.8` are rejected, private literals such as `10.26.30.200` are
accepted, and malformed input is rejected rather than defaulted to allowed.
Private LAN ranges are the RFC 1918 blocks 10.0.0.0/8, 172.16.0.0/12 and
192.168.0.0/16. -/
def isAllowedDeviceIP (address : String) : Bool :=
  match (splitDot address.toList []).mapM parseOctet with
  | some [a, b, c, d] =>
    a ≤ 255 && b ≤ 255 && c ≤ 255 && d ≤ 255 &&
      (a = 10 || (a = 172 && 16 ≤ b && b ≤ 31) || (a = 192 && b = 168))
  | _ => false

/-- Device credentials from the request body (`{ip, username, password}`);
absent fields are modelled as `""` (JS falsy). -/
structure Device where
  ip : String
  username : String
  password : String
deriving Repr, DecidableEq

/-- One student of a batch request (`{studentName, className, photoUrl}`). -/
structure Student where
  studentName : String
  className : String
  photoUrl : String
deriving Repr, DecidableEq

/-- Source function `employeeNoFromName(name)`: first 8 hex digits of the MD5 of the display
name, upper-cased. -/
def employeeNoFromName (md5 : String → String) (name : String) : String :=
  ((md5 name).take 8).toUpper

/-- Outcome of the photo download (`axios.get(photoUrl)`): resolved with the
byte count, or rejected with an error message. -/
inductive DownloadOutcome where
  | ok (sizeBytes : Nat)
  | err (msg : String)
deriving Repr, DecidableEq

/-- The per-student environment a batch iteration consumes: what the photo
store and the device answer at each of the three steps. -/
structure StudentEnv where
  download : DownloadOutcome
  createUserCall : CallOutcome
  uploadFaceCall : CallOutcome
deriving Repr, DecidableEq

/-- An environment in which all three steps resolve (photo downloads, both
device calls resolve). -/
def StudentEnv.isAllOk (e : StudentEnv) : Bool :=
  (match e.download with | .ok _ => true | .err _ => false) &&
  (match e.createUserCall with | .success _ => true | .failure _ _ => false) &&
  (match e.uploadFaceCall with | .success _ => true | .failure _ _ => false)

/-- The download entry of the per-student steps record (ok with size, or
not-ok with an error message). -/
structure DownloadStep where
  ok : Bool
  size : Option Nat := none
  error : Option String := none
deriving Repr, DecidableEq

/-- One per-student result object of the batch report. -/
structure StudentResult where
  studentName : String
  className : String
  employeeNo : String
  stepDownload : Option DownloadStep := none
  stepCreateUser : Option CreateUserResult := none
  stepUploadFace : Option UploadResult := none
  success : Bool := false
  error : Option String := none
deriving Repr, DecidableEq

/-- A result that records a failure at the download step. -/
def StudentResult.failedAtDownload (r : StudentResult) : Bool :=
  !r.success && (match r.stepDownload with | some st => !st.ok | none => false)

/-- The body of the per-student loop of the batch-enroll handler: download
the photo (failure stops at the download step), create the user (a
non-`ok` result stops at the createUser step), upload the face (a non-`ok`
result stops at the uploadFace step), otherwise mark the student
successful.  Each early stop pushes the partial result and `continue`s. -/
def processStudent (md5 : String → String) (e : StudentEnv) (s : Student) : StudentResult :=
  let employeeNo := employeeNoFromName md5 s.studentName
  let base : StudentResult :=
    { studentName := s.studentName, className := s.className, employeeNo := employeeNo }
  match e.download with
  | .err m =>
    { base with
      stepDownload := some { ok := false, error := some m },
      success := false,
      error := some "Failed to download photo" }
  | .ok size =>
    let dl : DownloadStep := { ok := true, size := some size }
    let userResult := createUser e.createUserCall
    if !userResult.ok then
      { base with
        stepDownload := some dl,
        stepCreateUser := some userResult,
        success := false,
        error := some "Failed to create user on device" }
    else
      let faceResult := uploadFaceBase64 e.uploadFaceCall
      if !faceResult.ok then
        { base with
          stepDownload := some dl,
          stepCreateUser := some userResult,
          stepUploadFace := some faceResult,
          success := false,
          error := some "Device rejected face image" }
      else
        { base with
          stepDownload := some dl,
          stepCreateUser := some userResult,
          stepUploadFace := some faceResult,
          success := true }

/-- The `for (const student of students)` loop: one result per student, in
order, the environment indexed by position; the failure of one student never stops
the recursion over the remaining students. -/
def processStudents (md5 : String → String) (env : Nat → StudentEnv) :
    Nat → List Student → List StudentResult
  | _, [] => []
  | i, s :: rest => processStudent md5 (env i) s :: processStudents md5 env (i + 1) rest

/-- The HTTP response of the batch-enroll handler. -/
structure BatchResponse where
  status : Nat
  success : Option Bool := none
  message : Option String := none
  error : Option String := none
  results : List StudentResult := []
deriving Repr, DecidableEq

/-- The batch-enroll handler (`src/pages/api/hikvision/batch-enroll.js`):
method check, device-credential presence check, private-LAN address check
(all before any device interaction), student-array check, then the
sequential per-student loop; the final response is always HTTP 200 with
`success: failCount === 0` and the aggregate message. -/
def batchHandler (md5 : String → String) (env : Nat → StudentEnv)
    (httpMethod : String) (device : Option Device) (students : Option (List Student)) :
    BatchResponse :=
  if httpMethod ≠ "POST" then { status := 405, error := some "Method not allowed" }
  else
    match device with
    | none => { status := 400, error := some "Missing device credentials (ip, username, password)" }
    | some d =>
      if d.ip = "" ∨ d.username = "" ∨ d.password = "" then
        { status := 400, error := some "Missing device credentials (ip, username, password)" }
      else if !(isAllowedDeviceIP d.ip) then
        { status := 400, error := some "Invalid device IP. Only private LAN addresses are allowed." }
      else
        match students with
        | none => { status := 400, error := some "No students to enroll" }
        | some ss =>
          if ss.length = 0 then { status := 400, error := some "No students to enroll" }
          else
            let results := processStudents md5 env 0 ss
            let successCount := (results.filter (fun r => r.success)).length
            let failCount := (results.filter (fun r => !r.success)).length
            { status := 200,
              success := some (failCount = 0 : Bool),
              message := some ("Enrolled " ++ toString successCount ++ "/"
                ++ toString ss.length ++ " students (" ++ toString failCount ++ " failed)"),
              results := results }

/-- Early-return decision of the validation prologue of a handler. -/
inductive GateResult where
  | reject (status : Nat) (error : String)
  | proceed (device : Device)
deriving Repr, DecidableEq

/-- The validation prologue of the users handler
(`src/pages/api/hikvision/users.js` lines 16–28): method check, credential
presence check, then the private-LAN address check, all before the first
device request. -/
def usersHandlerGate (httpMethod : String) (device : Option Device) : GateResult :=
  if httpMethod ≠ "POST" then .reject 405 "Method not allowed"
  else
    match device with
    | none => .reject 400 "Missing device credentials"
    | some d =>
      if d.ip = "" ∨ d.username = "" ∨ d.password = "" then
        .reject 400 "Missing device credentials"
      else if !(isAllowedDeviceIP d.ip) then
        .reject 400 "Invalid device IP. Only private LAN addresses are allowed."
      else .proceed d

/-- The HTTP response of the delete handler. -/
structure DelResponse where
  status : Nat
  success : Option Bool := none
  message : Option String := none
  error : Option String := none
  details : Option String := none
  faceDeleted : Option Bool := none
deriving Repr, DecidableEq

/-- The delete handler (the `/api/hikvision/delete` route): after the
validation prologue it first issues the FDLib `FDDelete` call — a failure
there is caught and only recorded as `faceDeleted: false` — then issues the
`UserInfo/Delete` call.  A resolved user delete with `statusCode: 1` is
success; a resolved body without it is a 502; a thrown user delete whose
sub-status code is `employeeNoNotExist` or `deviceUserNotExist` (or
`badJsonContent` with errorMsg equal to employeeNo) is downgraded to 200
success ("already removed"); any other throw is a 500.  The second
component lists the ISAPI paths called, in order. -/
def deleteHandler (httpMethod : String) (device : Option Device)
    (employeeNo : String) (name : Option String)
    (faceCall : CallOutcome) (userCall : CallOutcome) : DelResponse × List String :=
  if httpMethod ≠ "POST" then ({ status := 405, error := some "Method not allowed" }, [])
  else
    match device with
    | none => ({ status := 400, error := some "Missing device credentials" }, [])
    | some d =>
      if d.ip = "" ∨ d.username = "" ∨ d.password = "" then
        ({ status := 400, error := some "Missing device credentials" }, [])
      else if !(isAllowedDeviceIP d.ip) then
        ({ status := 400,
           error := some "Invalid device IP. Only private LAN addresses are allowed." }, [])
      else if employeeNo = "" then
        ({ status := 400, error := some "Missing employeeNo" }, [])
      else
        let faceDeleted := match faceCall with | .success _ => true | .failure _ _ => false
        let calls := ["/ISAPI/Intelligent/FDLib/FDDelete?format=json",
          "/ISAPI/AccessControl/UserInfo/Delete?format=json"]
        match userCall with
        | .success dta =>
          if dta.statusCode = some 1 then
            ({ status := 200,
               success := some true,
               message := some (jsOrStr name employeeNo ++ " removed from device"),
               faceDeleted := some faceDeleted }, calls)
          else
            ({ status := 502, error := some "Device rejected delete request" }, calls)
        | .failure msg respData =>
          let sub := firstTruthy [respData.bind (fun dd => dd.subStatusCode),
            respData.bind (fun dd => dd.statusStringSub)]
          let errMsg := jsOrStr (respData.bind (fun dd => dd.errorMsg)) ""
          if sub = "employeeNoNotExist" ∨ sub = "deviceUserNotExist"
              ∨ (sub = "badJsonContent" ∧ errMsg = "employeeNo") then
            ({ status := 200,
               success := some true,
               message := some (jsOrStr name employeeNo ++ " was already removed") }, calls)
          else
            ({ status := 500, error := some "Failed to delete user", details := some msg }, calls)

end Hik

open Hik

/-- Claim C1: for every username, realm, password, method, path, nonce, nc,
cnonce and qop, the Authorization header built by `buildDigestAuth` carries
exactly the MD5 chain of the spec: `HA1 = MD5(username:realm:password)`,
`HA2 = MD5(method:path)`, `response = MD5(HA1:nonce:nc:cnonce:qop:HA2)`,
with the cnonce supplied per attempt and `nc` the zero-padded successor of
the per-`(realm,nonce)` counter. -/
theorem buildDigestAuth_is_spec_md5_chain (md5 : String → String)
    (username password method uri cnonce : String) (ch : Challenge) (cs : NcCounters) :
    (buildDigestAuth md5 username password method uri cnonce ch cs).header =
      String.intercalate ", " [
        "Digest username=\"" ++ username ++ "\"",
        "realm=\"" ++ ch.realm ++ "\"",
        "nonce=\"" ++ ch.nonce ++ "\"",
        "uri=\"" ++ uri ++ "\"",
        "qop=" ++ jsOrStr ch.qop "auth",
        "nc=" ++ padStart (toString (cs (ch.realm ++ ":" ++ ch.nonce) + 1)) 8 '0',
        "cnonce=\"" ++ cnonce ++ "\"",
        "response=\"" ++ specDigestResponse md5 username ch.realm password method uri ch.nonce
          (padStart (toString (cs (ch.realm ++ ":" ++ ch.nonce) + 1)) 8 '0') cnonce
          (jsOrStr ch.qop "auth") ++ "\"",
        "opaque=\"" ++ jsOrStr ch.opq "" ++ "\""] := by
  rfl

/-- Claim C2: the per-`(realm,nonce)` counter is incremented exactly once per
`buildDigestAuth` call and rendered zero-padded to 8 digits; starting from a
counter that has never seen the nonce, the first request sends
`nc=00000001` and the second consecutive request against the same cached
nonce sends `nc=00000002`. -/
theorem nonce_counter_increments_and_pads (md5 : String → String)
    (username password method uri cn1 cn2 : String) (ch : Challenge) (cs : NcCounters)
    (h : cs (ch.realm ++ ":" ++ ch.nonce) = 0) :
    (buildDigestAuth md5 username password method uri cn1 ch cs).counters
        (ch.realm ++ ":" ++ ch.nonce) = cs (ch.realm ++ ":" ++ ch.nonce) + 1
    ∧ (buildDigestAuth md5 username password method uri cn1 ch cs).parts.get? 5 =
        some ("nc=" ++ padStart (toString (cs (ch.realm ++ ":" ++ ch.nonce) + 1)) 8 '0')
    ∧ (buildDigestAuth md5 username password method uri cn1 ch cs).parts.get? 5 =
        some "nc=00000001"
    ∧ (buildDigestAuth md5 username password method uri cn2 ch
        (buildDigestAuth md5 username password method uri cn1 ch cs).counters).counters
        (ch.realm ++ ":" ++ ch.nonce) = 2
    ∧ (buildDigestAuth md5 username password method uri cn2 ch
        (buildDigestAuth md5 username password method uri cn1 ch cs).counters).parts.get? 5 =
        some "nc=00000002" := by
  refine ⟨by simp [buildDigestAuth], ?_, ?_, ?_, ?_⟩
  · rfl
  · simp [buildDigestAuth, h]
    rfl
  · simp [buildDigestAuth]
    exact h
  · simp [buildDigestAuth, h]
    rfl

/-- Witness for C2 at a concrete challenge and empty counter map. -/
theorem nonce_counter_increments_and_pads_witness :
    let md5 : String → String := fun s => s
    let ch : Challenge := ⟨"DS-K1T341AMF", "abc123", some "auth", none⟩
    let cs : NcCounters := fun _ => 0
    (buildDigestAuth md5 "admin" "pw" "GET" "/ISAPI/System/deviceInfo" "c1" ch cs).counters
        ("DS-K1T341AMF" ++ ":" ++ "abc123") = cs ("DS-K1T341AMF" ++ ":" ++ "abc123") + 1
    ∧ (buildDigestAuth md5 "admin" "pw" "GET" "/ISAPI/System/deviceInfo" "c1" ch cs).parts.get? 5 =
        some ("nc=" ++ padStart (toString (cs ("DS-K1T341AMF" ++ ":" ++ "abc123") + 1)) 8 '0')
    ∧ (buildDigestAuth md5 "admin" "pw" "GET" "/ISAPI/System/deviceInfo" "c1" ch cs).parts.get? 5 =
        some "nc=00000001"
    ∧ (buildDigestAuth md5 "admin" "pw" "GET" "/ISAPI/System/deviceInfo" "c2" ch
        (buildDigestAuth md5 "admin" "pw" "GET" "/ISAPI/System/deviceInfo" "c1" ch cs).counters).counters
        ("DS-K1T341AMF" ++ ":" ++ "abc123") = 2
    ∧ (buildDigestAuth md5 "admin" "pw" "GET" "/ISAPI/System/deviceInfo" "c2" ch
        (buildDigestAuth md5 "admin" "pw" "GET" "/ISAPI/System/deviceInfo" "c1" ch cs).counters).parts.get? 5 =
        some "nc=00000002" := by
  exact nonce_counter_increments_and_pads (fun s => s) "admin" "pw" "GET"
    "/ISAPI/System/deviceInfo" "c1" "c2" ⟨"DS-K1T341AMF", "abc123", some "auth", none⟩
    (fun _ => 0) rfl

/-- Claim C3: after a valid cached challenge, a 401 on the real request
invalidates the cached challenge and triggers exactly one re-probe and one
retry; a second consecutive 401 throws the terminal error with message
`Authentication failed`, with no third request issued (exactly two real
requests are consumed, the remaining responses are untouched). -/
theorem hik_second_401_is_terminal (md5 : String → String) (cnonce : Nat → String)
    (username password httpMethod apiPath d1 d2 : String)
    (c0 c1 : Challenge) (ps : List Challenge) (rest : List Resp) (cs : NcCounters) :
    ((hikRequest md5 cnonce username password httpMethod apiPath
        { cache := some c0, counters := cs, probes := c1 :: ps,
          resps := ⟨401, d1⟩ :: ⟨401, d2⟩ :: rest, probeCount := 0, reqCount := 0 }).1 =
      HikOutcome.authFailed 401 d2)
    ∧ ((hikRequest md5 cnonce username password httpMethod apiPath
        { cache := some c0, counters := cs, probes := c1 :: ps,
          resps := ⟨401, d1⟩ :: ⟨401, d2⟩ :: rest, probeCount := 0, reqCount := 0 }).1.errMessage =
      some "Authentication failed")
    ∧ ((hikRequest md5 cnonce username password httpMethod apiPath
        { cache := some c0, counters := cs, probes := c1 :: ps,
          resps := ⟨401, d1⟩ :: ⟨401, d2⟩ :: rest, probeCount := 0, reqCount := 0 }).2.reqCount = 2)
    ∧ ((hikRequest md5 cnonce username password httpMethod apiPath
        { cache := some c0, counters := cs, probes := c1 :: ps,
          resps := ⟨401, d1⟩ :: ⟨401, d2⟩ :: rest, probeCount := 0, reqCount := 0 }).2.probeCount = 1)
    ∧ ((hikRequest md5 cnonce username password httpMethod apiPath
        { cache := some c0, counters := cs, probes := c1 :: ps,
          resps := ⟨401, d1⟩ :: ⟨401, d2⟩ :: rest, probeCount := 0, reqCount := 0 }).2.resps = rest)
    ∧ ((hikRequest md5 cnonce username password httpMethod apiPath
        { cache := some c0, counters := cs, probes := c1 :: ps,
          resps := ⟨401, d1⟩ :: ⟨401, d2⟩ :: rest, probeCount := 0, reqCount := 0 }).2.cache = none) := by
  refine ⟨rfl, rfl, rfl, rfl, rfl, rfl⟩

/-- Counterexample to claim C4 as stated: a 500 response is not surfaced as
the constructed `ISAPI ... returned ...` device error; `validateStatus`
(`s < 500`) makes axios itself reject, and that rejection propagates. -/
theorem hik_500_not_device_error :
    ((hikRequest (fun s => s) (fun _ => "cn") "admin" "pw" "GET" "/ISAPI/x"
        { cache := some ⟨"r", "n", none, none⟩, counters := fun _ => 0, probes := [],
          resps := [⟨500, "boom"⟩], probeCount := 0, reqCount := 0 }).1 =
      HikOutcome.axiosReject 500 "boom")
    ∧ ((hikRequest (fun s => s) (fun _ => "cn") "admin" "pw" "GET" "/ISAPI/x"
        { cache := some ⟨"r", "n", none, none⟩, counters := fun _ => 0, probes := [],
          resps := [⟨500, "boom"⟩], probeCount := 0, reqCount := 0 }).1.isDeviceErr = false) := by
  exact ⟨rfl, rfl⟩

/-- Claim C4 as amended: an HTTP response with status ≥ 400 other than 401
and below 500 is surfaced by `hikRequest` as the constructed device error
carrying the HTTP status and the response body (5xx responses instead make
the HTTP client itself reject before this error is built). -/
theorem hik_4xx_is_device_error (md5 : String → String) (cnonce : Nat → String)
    (username password httpMethod apiPath d : String) (s : Nat)
    (c0 : Challenge) (ps : List Challenge) (rest : List Resp) (cs : NcCounters)
    (h1 : 400 ≤ s) (h2 : s ≠ 401) (h3 : s < 500) :
    (hikRequest md5 cnonce username password httpMethod apiPath
        { cache := some c0, counters := cs, probes := ps,
          resps := ⟨s, d⟩ :: rest, probeCount := 0, reqCount := 0 }).1 =
      HikOutcome.deviceErr
        ("ISAPI " ++ httpMethod ++ " " ++ apiPath ++ " returned " ++ toString s) s d := by
  unfold hikRequest hikAttempt getChallenge
  simp only []
  rw [if_neg (by omega : ¬ 500 ≤ s), if_neg h2, if_pos h1]

/-- Witness for the amended C4 at a concrete 403 response. -/
theorem hik_4xx_is_device_error_witness :
    (hikRequest (fun s => s) (fun _ => "cn") "admin" "pw" "PUT" "/ISAPI/y"
        { cache := some ⟨"r", "n", none, none⟩, counters := fun _ => 0, probes := [],
          resps := [⟨403, "denied"⟩], probeCount := 0, reqCount := 0 }).1 =
      HikOutcome.deviceErr
        ("ISAPI " ++ "PUT" ++ " " ++ "/ISAPI/y" ++ " returned " ++ toString 403) 403 "denied" := by
  exact hik_4xx_is_device_error (fun s => s) (fun _ => "cn") "admin" "pw" "PUT" "/ISAPI/y"
    "denied" 403 ⟨"r", "n", none, none⟩ [] [] (fun _ => 0)
    (by decide) (by decide) (by decide)

/-- Helper: the batch handler on a well-formed request reduces to the final
200 response built from the per-student loop. -/
theorem batchHandler_valid (md5 : String → String) (env : Nat → StudentEnv)
    (d : Device) (ss : List Student)
    (h1 : d.ip ≠ "") (h2 : d.username ≠ "") (h3 : d.password ≠ "")
    (h4 : isAllowedDeviceIP d.ip = true) (h5 : ss.length ≠ 0) :
    batchHandler md5 env "POST" (some d) (some ss) =
      { status := 200,
        success := some ((((processStudents md5 env 0 ss).filter
          (fun r => !r.success)).length = 0 : Bool)),
        message := some ("Enrolled "
          ++ toString (((processStudents md5 env 0 ss).filter (fun r => r.success)).length)
          ++ "/" ++ toString ss.length ++ " students ("
          ++ toString (((processStudents md5 env 0 ss).filter (fun r => !r.success)).length)
          ++ " failed)"),
        results := processStudents md5 env 0 ss } := by
  simp [batchHandler, h1, h2, h3, h4, h5]

/-- Claim C5: the Gateway entry points that take a device address validate
it against the private-LAN allowlist before any device request: with a
disallowed address the batch-enroll handler answers 400 with an empty
result list (no student is processed) and the users-handler prologue
rejects; the allowlist itself rejects the public literal `8.8.8.8`,
accepts the private literal `10.26.30.200`, and rejects malformed input
(`not-an-ip`, a 3-component address, the empty string, an out-of-range
octet) rather than defaulting to allowed. -/
theorem address_validated_before_device_access (md5 : String → String)
    (env : Nat → StudentEnv) (d : Device) (ss : List Student)
    (h1 : d.ip ≠ "") (h2 : d.username ≠ "") (h3 : d.password ≠ "")
    (h4 : isAllowedDeviceIP d.ip = false) :
    batchHandler md5 env "POST" (some d) (some ss) =
      { status := 400,
        error := some "Invalid device IP. Only private LAN addresses are allowed." }
    ∧ (batchHandler md5 env "POST" (some d) (some ss)).results = []
    ∧ usersHandlerGate "POST" (some d) =
        GateResult.reject 400 "Invalid device IP. Only private LAN addresses are allowed."
    ∧ isAllowedDeviceIP "8.8.8.8" = false
    ∧ isAllowedDeviceIP "10.26.30.200" = true
    ∧ isAllowedDeviceIP "not-an-ip" = false
    ∧ isAllowedDeviceIP "10.26.30" = false
    ∧ isAllowedDeviceIP "" = false
    ∧ isAllowedDeviceIP "300.1.1.1" = false := by
  refine ⟨?_, ?_, ?_, by decide, by decide, by decide, by decide, by decide, by decide⟩
  · simp [batchHandler, h1, h2, h3, h4]
  · simp [batchHandler, h1, h2, h3, h4]
  · simp [usersHandlerGate, h1, h2, h3, h4]

/-- Witness for C5: a public address is turned away by both handlers before
any device interaction. -/
theorem address_validated_before_device_access_witness :
    batchHandler (fun s => s) (fun _ => ⟨DownloadOutcome.ok 1,
        CallOutcome.success {}, CallOutcome.success {}⟩) "POST"
      (some ⟨"8.8.8.8", "admin", "pw"⟩)
      (some [⟨"Student A", "5B", "https://example/a.jpg"⟩]) =
      { status := 400,
        error := some "Invalid device IP. Only private LAN addresses are allowed." }
    ∧ (batchHandler (fun s => s) (fun _ => ⟨DownloadOutcome.ok 1,
        CallOutcome.success {}, CallOutcome.success {}⟩) "POST"
      (some ⟨"8.8.8.8", "admin", "pw"⟩)
      (some [⟨"Student A", "5B", "https://example/a.jpg"⟩])).results = []
    ∧ usersHandlerGate "POST" (some ⟨"8.8.8.8", "admin", "pw"⟩) =
        GateResult.reject 400 "Invalid device IP. Only private LAN addresses are allowed."
    ∧ isAllowedDeviceIP "8.8.8.8" = false
    ∧ isAllowedDeviceIP "10.26.30.200" = true
    ∧ isAllowedDeviceIP "not-an-ip" = false
    ∧ isAllowedDeviceIP "10.26.30" = false
    ∧ isAllowedDeviceIP "" = false
    ∧ isAllowedDeviceIP "300.1.1.1" = false := by
  exact address_validated_before_device_access (fun s => s)
    (fun _ => ⟨DownloadOutcome.ok 1, CallOutcome.success {}, CallOutcome.success {}⟩)
    ⟨"8.8.8.8", "admin", "pw"⟩ [⟨"Student A", "5B", "https://example/a.jpg"⟩]
    (by decide) (by decide) (by decide) (by decide)

/-- Claim C7: `createUser` treats the already-exists sub-status
codes as success, so a second call with the same employeeNo (the device now
reporting the user already exists, under either code and whichever of the
two body locations carries it) returns success just like the first call
that actually created the user. -/
theorem createUser_idempotent_on_already_exists (dta : DevData) (msg : String)
    (sc : Option Int) (sss em : Option String) :
    createUser (CallOutcome.success dta) = { ok := true }
    ∧ createUser (CallOutcome.failure msg
        (some { statusCode := sc, subStatusCode := some "deviceUserAlreadyExist",
                statusStringSub := sss, errorMsg := em })) =
      { ok := true, existed := true }
    ∧ createUser (CallOutcome.failure msg
        (some { statusCode := sc, subStatusCode := some "employeeNoAlreadyExist",
                statusStringSub := sss, errorMsg := em })) =
      { ok := true, existed := true }
    ∧ createUser (CallOutcome.failure msg
        (some { statusCode := sc, subStatusCode := none,
                statusStringSub := some "deviceUserAlreadyExist", errorMsg := em })) =
      { ok := true, existed := true } := by
  refine ⟨rfl, ?_, ?_, ?_⟩ <;> simp [createUser, firstTruthy]

/-- Claim C8: the delete flow issues the face-data delete first and the
user-record delete second; a failed face delete is non-fatal and does not
stop the user-record delete (which still yields 200 success); and a user
delete rejected with a does-not-exist sub-status code (either
`employeeNoNotExist` or `deviceUserNotExist`) is downgraded to 200 success
rather than an error. -/
theorem deleteUser_face_first_and_not_exist_is_success
    (empNo : String) (hemp : empNo ≠ "") (name : Option String)
    (fmsg umsg : String) (fd : Option DevData) (okData : DevData)
    (hok : okData.statusCode = some 1)
    (sc : Option Int) (em : Option String) :
    ((deleteHandler "POST" (some ⟨"10.26.30.200", "admin", "pw"⟩) empNo name
        (CallOutcome.failure fmsg fd) (CallOutcome.success okData)).1.status = 200
      ∧ (deleteHandler "POST" (some ⟨"10.26.30.200", "admin", "pw"⟩) empNo name
        (CallOutcome.failure fmsg fd) (CallOutcome.success okData)).1.success = some true
      ∧ (deleteHandler "POST" (some ⟨"10.26.30.200", "admin", "pw"⟩) empNo name
        (CallOutcome.failure fmsg fd) (CallOutcome.success okData)).1.faceDeleted = some false
      ∧ (deleteHandler "POST" (some ⟨"10.26.30.200", "admin", "pw"⟩) empNo name
        (CallOutcome.failure fmsg fd) (CallOutcome.success okData)).2 =
          ["/ISAPI/Intelligent/FDLib/FDDelete?format=json",
           "/ISAPI/AccessControl/UserInfo/Delete?format=json"])
    ∧ ((deleteHandler "POST" (some ⟨"10.26.30.200", "admin", "pw"⟩) empNo name
        (CallOutcome.success okData) (CallOutcome.failure umsg
          (some { statusCode := sc, subStatusCode := some "employeeNoNotExist",
                  statusStringSub := none, errorMsg := em }))).1.status = 200
      ∧ (deleteHandler "POST" (some ⟨"10.26.30.200", "admin", "pw"⟩) empNo name
        (CallOutcome.success okData) (CallOutcome.failure umsg
          (some { statusCode := sc, subStatusCode := some "employeeNoNotExist",
                  statusStringSub := none, errorMsg := em }))).1.success = some true)
    ∧ ((deleteHandler "POST" (some ⟨"10.26.30.200", "admin", "pw"⟩) empNo name
        (CallOutcome.success okData) (CallOutcome.failure umsg
          (some { statusCode := sc, subStatusCode := some "deviceUserNotExist",
                  statusStringSub := none, errorMsg := em }))).1.status = 200
      ∧ (deleteHandler "POST" (some ⟨"10.26.30.200", "admin", "pw"⟩) empNo name
        (CallOutcome.success okData) (CallOutcome.failure umsg
          (some { statusCode := sc, subStatusCode := some "deviceUserNotExist",
                  statusStringSub := none, errorMsg := em }))).1.success = some true) := by
  have hip : isAllowedDeviceIP "10.26.30.200" = true := by decide
  refine ⟨⟨?_, ?_, ?_, ?_⟩, ⟨?_, ?_⟩, ⟨?_, ?_⟩⟩ <;>
    simp [deleteHandler, hemp, hok, hip, firstTruthy]

/-- Witness for C8 at a concrete employeeNo and device body. -/
theorem deleteUser_face_first_and_not_exist_is_success_witness :
    ((deleteHandler "POST" (some ⟨"10.26.30.200", "admin", "pw"⟩) "A1B2C3D4" (some "Student A")
        (CallOutcome.failure "FDLib delete failed" none)
        (CallOutcome.success { statusCode := some 1 })).1.status = 200
      ∧ (deleteHandler "POST" (some ⟨"10.26.30.200", "admin", "pw"⟩) "A1B2C3D4" (some "Student A")
        (CallOutcome.failure "FDLib delete failed" none)
        (CallOutcome.success { statusCode := some 1 })).1.success = some true
      ∧ (deleteHandler "POST" (some ⟨"10.26.30.200", "admin", "pw"⟩) "A1B2C3D4" (some "Student A")
        (CallOutcome.failure "FDLib delete failed" none)
        (CallOutcome.success { statusCode := some 1 })).1.faceDeleted = some false
      ∧ (deleteHandler "POST" (some ⟨"10.26.30.200", "admin", "pw"⟩) "A1B2C3D4" (some "Student A")
        (CallOutcome.failure "FDLib delete failed" none)
        (CallOutcome.success { statusCode := some 1 })).2 =
          ["/ISAPI/Intelligent/FDLib/FDDelete?format=json",
           "/ISAPI/AccessControl/UserInfo/Delete?format=json"])
    ∧ ((deleteHandler "POST" (some ⟨"10.26.30.200", "admin", "pw"⟩) "A1B2C3D4" (some "Student A")
        (CallOutcome.success { statusCode := some 1 }) (CallOutcome.failure "request failed"
          (some { statusCode := none, subStatusCode := some "employeeNoNotExist",
                  statusStringSub := none, errorMsg := none }))).1.status = 200
      ∧ (deleteHandler "POST" (some ⟨"10.26.30.200", "admin", "pw"⟩) "A1B2C3D4" (some "Student A")
        (CallOutcome.success { statusCode := some 1 }) (CallOutcome.failure "request failed"
          (some { statusCode := none, subStatusCode := some "employeeNoNotExist",
                  statusStringSub := none, errorMsg := none }))).1.success = some true)
    ∧ ((deleteHandler "POST" (some ⟨"10.26.30.200", "admin", "pw"⟩) "A1B2C3D4" (some "Student A")
        (CallOutcome.success { statusCode := some 1 }) (CallOutcome.failure "request failed"
          (some { statusCode := none, subStatusCode := some "deviceUserNotExist",
                  statusStringSub := none, errorMsg := none }))).1.status = 200
      ∧ (deleteHandler "POST" (some ⟨"10.26.30.200", "admin", "pw"⟩) "A1B2C3D4" (some "Student A")
        (CallOutcome.success { statusCode := some 1 }) (CallOutcome.failure "request failed"
          (some { statusCode := none, subStatusCode := some "deviceUserNotExist",
                  statusStringSub := none, errorMsg := none }))).1.success = some true) := by
  exact deleteUser_face_first_and_not_exist_is_success "A1B2C3D4" (by decide)
    (some "Student A") "FDLib delete failed" "request failed" none
    { statusCode := some 1 } rfl none none

/-- Claim C9 is contradicted by the code: the source computes the upload
acceptance as `data?.statusCode === 1 || true`, which is `true` for every
resolved response, so a device rejection delivered as an HTTP 200 body with
a non-accepting `statusCode` (here 5) is recorded as `ok: true` and the
student is marked `success: true` instead of failed at the uploadFace
step. -/
theorem uploadFace_rejection_counted_success :
    (uploadFaceBase64 (CallOutcome.success
        { statusCode := some 5, subStatusCode := some "noFaceDetected" })).ok = true
    ∧ (processStudent (fun s => s)
        ⟨DownloadOutcome.ok 12345,
         CallOutcome.success { statusCode := some 1 },
         CallOutcome.success { statusCode := some 5, subStatusCode := some "noFaceDetected" }⟩
        ⟨"Student A", "5B", "https://example/a.jpg"⟩).success = true
    ∧ (processStudent (fun s => s)
        ⟨DownloadOutcome.ok 12345,
         CallOutcome.success { statusCode := some 1 },
         CallOutcome.success { statusCode := some 5, subStatusCode := some "noFaceDetected" }⟩
        ⟨"Student A", "5B", "https://example/a.jpg"⟩).error = none := by
  refine ⟨rfl, rfl, rfl⟩

/-- Helper: the batch loop yields one result per student. -/
theorem processStudents_length (md5 : String → String) (env : Nat → StudentEnv) :
    ∀ (ss : List Student) (i : Nat), (processStudents md5 env i ss).length = ss.length := by
  intro ss
  induction ss with
  | nil => intro i; rfl
  | cons s rest ih => intro i; simp [processStudents, ih]

/-- Helper: the j-th result of the batch loop is the j-th student processed
against its own slot of the environment. -/
theorem processStudents_getElem? (md5 : String → String) (env : Nat → StudentEnv) :
    ∀ (ss : List Student) (i j : Nat),
      (processStudents md5 env i ss)[j]? =
        (ss[j]?).map (fun s => processStudent md5 (env (i + j)) s) := by
  intro ss
  induction ss with
  | nil => intro i j; simp [processStudents]
  | cons s rest ih =>
    intro i j
    cases j with
    | zero => simp [processStudents]
    | succ j2 =>
      have harith : i + 1 + j2 = i + (j2 + 1) := by omega
      simp [processStudents, ih, harith]

/-- Helper: a student whose three steps all resolve is marked successful. -/
theorem processStudent_success_of_allOk (md5 : String → String) (e : StudentEnv)
    (s : Student) (h : e.isAllOk = true) : (processStudent md5 e s).success = true := by
  obtain ⟨dl, cu, uf⟩ := e
  cases dl with
  | err m => simp [StudentEnv.isAllOk] at h
  | ok n =>
    cases cu with
    | failure m rd => simp [StudentEnv.isAllOk] at h
    | success d1 =>
      cases uf with
      | failure m rd => simp [StudentEnv.isAllOk] at h
      | success d2 => simp [processStudent, createUser, uploadFaceBase64]

/-- Helper: a student whose photo download rejects is marked failed at the
download step and unsuccessful. -/
theorem processStudent_download_err (md5 : String → String) (e : StudentEnv)
    (s : Student) (m : String) (h : e.download = DownloadOutcome.err m) :
    (processStudent md5 e s).success = false
    ∧ (processStudent md5 e s).stepDownload = some { ok := false, error := some m }
    ∧ (processStudent md5 e s).failedAtDownload = true := by
  obtain ⟨dl, cu, uf⟩ := e
  cases dl with
  | ok n => simp at h
  | err m2 =>
    simp at h
    subst h
    exact ⟨rfl, rfl, rfl⟩

/-- Helper: in a list where the predicate fails at exactly one index, the
matching sublist has all elements but one and the complement has exactly
one element. -/
theorem filter_single_false {α : Type} (p : α → Bool) :
    ∀ (l : List α) (k : Nat) (hk : k < l.length),
      p (l.get ⟨k, hk⟩) = false →
      (∀ i (hi : i < l.length), i ≠ k → p (l.get ⟨i, hi⟩) = true) →
      (l.filter p).length = l.length - 1 ∧ (l.filter (fun a => !p a)).length = 1 := by
  intro l
  induction l with
  | nil => intro k hk; exact absurd hk (Nat.not_lt_zero k)
  | cons a t ih =>
    intro k hk hbad hgood
    cases k with
    | zero =>
      have ha : p a = false := hbad
      have ht : ∀ x ∈ t, p x = true := by
        intro x hx
        obtain ⟨n, hn⟩ := List.mem_iff_get.mp hx
        have hlt : n.1 + 1 < (a :: t).length := Nat.succ_lt_succ n.2
        have := hgood (n.1 + 1) hlt (Nat.succ_ne_zero n.1)
        rw [List.get_cons_succ] at this
        rw [← hn]
        convert this using 3
      constructor
      · rw [List.filter_cons_of_neg (by simp [ha])]
        rw [List.filter_eq_self.mpr ht]
        simp
      · rw [List.filter_cons_of_pos (by simp [ha])]
        have ht2 : t.filter (fun x => !p x) = [] :=
          List.filter_eq_nil_iff.mpr (by intro x hx; simp [ht x hx])
        simp [ht2]
    | succ k2 =>
      have hk2 : k2 < t.length := Nat.lt_of_succ_lt_succ hk
      have ha : p a = true := by
        have := hgood 0 (Nat.succ_pos _) (by simp)
        simpa using this
      have hbad2 : p (t.get ⟨k2, hk2⟩) = false := by
        have := hbad
        rwa [List.get_cons_succ] at this
      have hgood2 : ∀ i (hi : i < t.length), i ≠ k2 → p (t.get ⟨i, hi⟩) = true := by
        intro i hi hne
        have := hgood (i + 1) (Nat.succ_lt_succ hi) (by omega)
        rwa [List.get_cons_succ] at this
      obtain ⟨ih1, ih2⟩ := ih k2 hk2 hbad2 hgood2
      constructor
      · rw [List.filter_cons_of_pos ha]
        simp only [List.length_cons, ih1]
        omega
      · rw [List.filter_cons_of_neg (by simp [ha])]
        exact ih2

/-- Claim C6: in a batch where the photo download fails for exactly one
student and the steps of every other student resolve, the handler returns
one result per student, the result of the failing student is marked failed at the download
step, exactly one result is unsuccessful, and the remaining N−1 students
are processed to success — the single failure never aborts the rest of the
batch. -/
theorem batch_single_download_failure_is_isolated (md5 : String → String)
    (env : Nat → StudentEnv) (d : Device) (ss : List Student) (k : Nat) (m : String)
    (h1 : d.ip ≠ "") (h2 : d.username ≠ "") (h3 : d.password ≠ "")
    (h4 : isAllowedDeviceIP d.ip = true)
    (hk : k < ss.length)
    (hdl : (env k).download = DownloadOutcome.err m)
    (hok : ∀ i, i < ss.length → i ≠ k → (env i).isAllOk = true) :
    (batchHandler md5 env "POST" (some d) (some ss)).status = 200
    ∧ (batchHandler md5 env "POST" (some d) (some ss)).results.length = ss.length
    ∧ ((batchHandler md5 env "POST" (some d) (some ss)).results.filter
        (fun r => r.success)).length = ss.length - 1
    ∧ ((batchHandler md5 env "POST" (some d) (some ss)).results.filter
        (fun r => !r.success)).length = 1
    ∧ ((batchHandler md5 env "POST" (some d) (some ss)).results[k]?).map
        (fun r => r.failedAtDownload) = some true := by
  have h5 : ss.length ≠ 0 := by omega
  have hred := batchHandler_valid md5 env d ss h1 h2 h3 h4 h5
  rw [hred]
  have hlen : (processStudents md5 env 0 ss).length = ss.length :=
    processStudents_length md5 env ss 0
  have hkR : k < (processStudents md5 env 0 ss).length := by omega
  have hgetk : (processStudents md5 env 0 ss)[k]? =
      some (processStudent md5 (env k) (ss.get ⟨k, hk⟩)) := by
    rw [processStudents_getElem? md5 env ss 0 k, List.getElem?_eq_getElem hk]
    simp
  have hgk : (processStudents md5 env 0 ss).get ⟨k, hkR⟩ =
      processStudent md5 (env k) (ss.get ⟨k, hk⟩) := by
    have h2get := hgetk
    rw [List.getElem?_eq_getElem hkR] at h2get
    simpa using h2get
  have hbadk : (fun r => r.success) ((processStudents md5 env 0 ss).get ⟨k, hkR⟩) = false := by
    rw [hgk]
    exact (processStudent_download_err md5 (env k) (ss.get ⟨k, hk⟩) m hdl).1
  have hgoodR : ∀ i (hi : i < (processStudents md5 env 0 ss).length), i ≠ k →
      (fun r => r.success) ((processStudents md5 env 0 ss).get ⟨i, hi⟩) = true := by
    intro i hi hne
    have hi2 : i < ss.length := by omega
    have hgeti : (processStudents md5 env 0 ss)[i]? =
        some (processStudent md5 (env i) (ss.get ⟨i, hi2⟩)) := by
      rw [processStudents_getElem? md5 env ss 0 i, List.getElem?_eq_getElem hi2]
      simp
    have hgi : (processStudents md5 env 0 ss).get ⟨i, hi⟩ =
        processStudent md5 (env i) (ss.get ⟨i, hi2⟩) := by
      rw [List.getElem?_eq_getElem hi] at hgeti
      simpa using hgeti
    rw [hgi]
    exact processStudent_success_of_allOk md5 (env i) (ss.get ⟨i, hi2⟩) (hok i hi2 hne)
  obtain ⟨f1, f2⟩ := filter_single_false (fun r => r.success)
    (processStudents md5 env 0 ss) k hkR hbadk hgoodR
  refine ⟨rfl, hlen, ?_, f2, ?_⟩
  · rw [f1, hlen]
  · rw [hgetk]
    simp [Option.map]
    exact (processStudent_download_err md5 (env k) (ss.get ⟨k, hk⟩) m hdl).2.2

/-- Witness for C6: three students, the photo URL of the middle one unreachable;
three results, one download failure, two successes. -/
theorem batch_single_download_failure_is_isolated_witness :
    (batchHandler (fun s => s)
        (fun i => if i = 1 then
            ⟨DownloadOutcome.err "getaddrinfo ENOTFOUND", CallOutcome.success { statusCode := some 1 },
              CallOutcome.success { statusCode := some 1 }⟩
          else
            ⟨DownloadOutcome.ok 4096, CallOutcome.success { statusCode := some 1 },
              CallOutcome.success { statusCode := some 1 }⟩)
        "POST" (some ⟨"10.26.30.200", "admin", "pw"⟩)
        (some [⟨"Student A", "5A", "https://example/a.jpg"⟩,
               ⟨"Student B", "5B", "https://example/b.jpg"⟩,
               ⟨"Student C", "5C", "https://example/c.jpg"⟩])).status = 200
    ∧ (batchHandler (fun s => s)
        (fun i => if i = 1 then
            ⟨DownloadOutcome.err "getaddrinfo ENOTFOUND", CallOutcome.success { statusCode := some 1 },
              CallOutcome.success { statusCode := some 1 }⟩
          else
            ⟨DownloadOutcome.ok 4096, CallOutcome.success { statusCode := some 1 },
              CallOutcome.success { statusCode := some 1 }⟩)
        "POST" (some ⟨"10.26.30.200", "admin", "pw"⟩)
        (some [⟨"Student A", "5A", "https://example/a.jpg"⟩,
               ⟨"Student B", "5B", "https://example/b.jpg"⟩,
               ⟨"Student C", "5C", "https://example/c.jpg"⟩])).results.length =
      ([⟨"Student A", "5A", "https://example/a.jpg"⟩,
        ⟨"Student B", "5B", "https://example/b.jpg"⟩,
        ⟨"Student C", "5C", "https://example/c.jpg"⟩] : List Student).length
    ∧ ((batchHandler (fun s => s)
        (fun i => if i = 1 then
            ⟨DownloadOutcome.err "getaddrinfo ENOTFOUND", CallOutcome.success { statusCode := some 1 },
              CallOutcome.success { statusCode := some 1 }⟩
          else
            ⟨DownloadOutcome.ok 4096, CallOutcome.success { statusCode := some 1 },
              CallOutcome.success { statusCode := some 1 }⟩)
        "POST" (some ⟨"10.26.30.200", "admin", "pw"⟩)
        (some [⟨"Student A", "5A", "https://example/a.jpg"⟩,
               ⟨"Student B", "5B", "https://example/b.jpg"⟩,
               ⟨"Student C", "5C", "https://example/c.jpg"⟩])).results.filter
        (fun r => r.success)).length =
      ([⟨"Student A", "5A", "https://example/a.jpg"⟩,
        ⟨"Student B", "5B", "https://example/b.jpg"⟩,
        ⟨"Student C", "5C", "https://example/c.jpg"⟩] : List Student).length - 1
    ∧ ((batchHandler (fun s => s)
        (fun i => if i = 1 then
            ⟨DownloadOutcome.err "getaddrinfo ENOTFOUND", CallOutcome.success { statusCode := some 1 },
              CallOutcome.success { statusCode := some 1 }⟩
          else
            ⟨DownloadOutcome.ok 4096, CallOutcome.success { statusCode := some 1 },
              CallOutcome.success { statusCode := some 1 }⟩)
        "POST" (some ⟨"10.26.30.200", "admin", "pw"⟩)
        (some [⟨"Student A", "5A", "https://example/a.jpg"⟩,
               ⟨"Student B", "5B", "https://example/b.jpg"⟩,
               ⟨"Student C", "5C", "https://example/c.jpg"⟩])).results.filter
        (fun r => !r.success)).length = 1
    ∧ ((batchHandler (fun s => s)
        (fun i => if i = 1 then
            ⟨DownloadOutcome.err "getaddrinfo ENOTFOUND", CallOutcome.success { statusCode := some 1 },
              CallOutcome.success { statusCode := some 1 }⟩
          else
            ⟨DownloadOutcome.ok 4096, CallOutcome.success { statusCode := some 1 },
              CallOutcome.success { statusCode := some 1 }⟩)
        "POST" (some ⟨"10.26.30.200", "admin", "pw"⟩)
        (some [⟨"Student A", "5A", "https://example/a.jpg"⟩,
               ⟨"Student B", "5B", "https://example/b.jpg"⟩,
               ⟨"Student C", "5C", "https://example/c.jpg"⟩])).results[1]?).map
        (fun r => r.failedAtDownload) = some true := by
  exact batch_single_download_failure_is_isolated (fun s => s)
    (fun i => if i = 1 then
        ⟨DownloadOutcome.err "getaddrinfo ENOTFOUND", CallOutcome.success { statusCode := some 1 },
          CallOutcome.success { statusCode := some 1 }⟩
      else
        ⟨DownloadOutcome.ok 4096, CallOutcome.success { statusCode := some 1 },
          CallOutcome.success { statusCode := some 1 }⟩)
    ⟨"10.26.30.200", "admin", "pw"⟩
    [⟨"Student A", "5A", "https://example/a.jpg"⟩,
     ⟨"Student B", "5B", "https://example/b.jpg"⟩,
     ⟨"Student C", "5C", "https://example/c.jpg"⟩]
    1 "getaddrinfo ENOTFOUND"
    (by decide) (by decide) (by decide) (by decide) (by decide) rfl (by decide)

/-- Claim C10: once validation passes (POST, full credentials, allowed
address, non-empty student list), the batch handler answers HTTP 200
whatever the per-student outcomes are, and the top-level `success` flag is
`some true` exactly when no per-student result failed. -/
theorem batch_http200_and_success_iff_no_failures (md5 : String → String)
    (env : Nat → StudentEnv) (d : Device) (ss : List Student)
    (h1 : d.ip ≠ "") (h2 : d.username ≠ "") (h3 : d.password ≠ "")
    (h4 : isAllowedDeviceIP d.ip = true) (h5 : ss ≠ []) :
    (batchHandler md5 env "POST" (some d) (some ss)).status = 200
    ∧ ((batchHandler md5 env "POST" (some d) (some ss)).success = some true ↔
        ((batchHandler md5 env "POST" (some d) (some ss)).results.filter
          (fun r => !r.success)).length = 0) := by
  have h5n : ss.length ≠ 0 := by
    intro hc
    exact h5 (List.length_eq_zero.mp hc)
  rw [batchHandler_valid md5 env d ss h1 h2 h3 h4 h5n]
  refine ⟨rfl, ?_⟩
  simp

/-- Witness for C10: a two-student batch in which every student fails (both
photo downloads reject) still returns HTTP 200, with `success` not
`some true` since two results failed. -/
theorem batch_http200_and_success_iff_no_failures_witness :
    (batchHandler (fun s => s)
        (fun _ => ⟨DownloadOutcome.err "timeout", CallOutcome.failure "unreachable" none,
          CallOutcome.failure "unreachable" none⟩)
        "POST" (some ⟨"10.26.30.200", "admin", "pw"⟩)
        (some [⟨"Student A", "5A", "https://example/a.jpg"⟩,
               ⟨"Student B", "5B", "https://example/b.jpg"⟩])).status = 200
    ∧ ((batchHandler (fun s => s)
        (fun _ => ⟨DownloadOutcome.err "timeout", CallOutcome.failure "unreachable" none,
          CallOutcome.failure "unreachable" none⟩)
        "POST" (some ⟨"10.26.30.200", "admin", "pw"⟩)
        (some [⟨"Student A", "5A", "https://example/a.jpg"⟩,
               ⟨"Student B", "5B", "https://example/b.jpg"⟩])).success = some true ↔
        ((batchHandler (fun s => s)
        (fun _ => ⟨DownloadOutcome.err "timeout", CallOutcome.failure "unreachable" none,
          CallOutcome.failure "unreachable" none⟩)
        "POST" (some ⟨"10.26.30.200", "admin", "pw"⟩)
        (some [⟨"Student A", "5A", "https://example/a.jpg"⟩,
               ⟨"Student B", "5B", "https://example/b.jpg"⟩])).results.filter
          (fun r => !r.success)).length = 0) := by
  exact batch_http200_and_success_iff_no_failures (fun s => s)
    (fun _ => ⟨DownloadOutcome.err "timeout", CallOutcome.failure "unreachable" none,
      CallOutcome.failure "unreachable" none⟩)
    ⟨"10.26.30.200", "admin", "pw"⟩
    [⟨"Student A", "5A", "https://example/a.jpg"⟩,
     ⟨"Student B", "5B", "https://example/b.jpg"⟩]
    (by decide) (by decide) (by decide) (by decide) (by decide)
